import Mathlib

/-!
Shallow embedding of `chitti_agent.py` (class `ChittiAgent`): a single-pass
classify → route → branch → format pipeline over a mutable state record.

Python strings are modelled as `List Char`; the Python string operations the
program uses (`str.strip`, `str.split('\n')`, `str.replace`, `str.lower`,
`str.startswith`) are given executable models below.  The external services
(chat completion, the Wikipedia tool, the DALL-E image endpoint, the YouTube
search tool) are oracles `List Char → Except (List Char) (List Char)`:
`Except.error e` models the service call raising an exception whose string
rendering is `e`, and `Except.ok r` a normal reply `r`.
-/

deriving instance DecidableEq for Except

namespace Chitti

/-- Character list of a string literal; all program strings live in `List Char`. -/
abbrev str (s : String) : List Char := s.data

/-- Python `s.strip()`: remove leading and trailing whitespace. -/
def pyStrip (s : List Char) : List Char :=
  ((s.dropWhile Char.isWhitespace).reverse.dropWhile Char.isWhitespace).reverse

/-- Python `s.split('\n')`: split at every newline, keeping empty pieces. -/
def splitNL : List Char → List (List Char)
  | [] => [[]]
  | c :: rest =>
    if c = '\n' then [] :: splitNL rest
    else
      match splitNL rest with
      | [] => [[c]]
      | piece :: pieces => (c :: piece) :: pieces

/-- Scanning loop of Python `s.replace(pat, repl)` for a non-empty `pat`:
replaces every non-overlapping occurrence left to right, consuming one unit
of fuel per scanning step.  The program only calls it with the non-empty
patterns `"REASONING:"` and `"MEDIUM:"`. -/
def replaceCore (pat repl : List Char) : Nat → List Char → List Char
  | 0, s => s
  | _ + 1, [] => []
  | fuel + 1, c :: rest =>
    if pat.isPrefixOf (c :: rest) then
      repl ++ replaceCore pat repl fuel (rest.drop (pat.length - 1))
    else
      c :: replaceCore pat repl fuel rest

/-- Python `s.replace(pat, repl)` for a non-empty `pat`; fuel `s.length` is
enough because every scanning step consumes at least one character. -/
def pyReplace (s pat repl : List Char) : List Char := replaceCore pat repl s.length s

/-- Python `s.lower()`. -/
def pyLower (s : List Char) : List Char := s.map Char.toLower

/-- The `"REASONING:"` marker of the classifier's expected reply format. -/
def reasoningMarker : List Char := str "REASONING:"

/-- The `"MEDIUM:"` marker of the classifier's expected reply format. -/
def mediumMarker : List Char := str "MEDIUM:"

/-- One entry of the `messages` list (a Python dict with `role` and `content`). -/
structure Message where
  role : List Char
  content : List Char
deriving DecidableEq, Repr

/-- The `AgentState` TypedDict threaded through the LangGraph pipeline. -/
structure AgentState where
  user_query : List Char
  reasoning : List Char
  selected_medium : List Char
  output : List Char
  messages : List Message
deriving DecidableEq, Repr

/-- The four external services used by `ChittiAgent`.  Each maps request text
to either a normal reply (`Except.ok`) or a raised exception (`Except.error`).
For `dalle`, the `ok` value is the first generated image's URL
(`response.data[0].url`); an `error` also covers failures while extracting it. -/
structure Services where
  completion : List Char → Except (List Char) (List Char)
  wikipedia : List Char → Except (List Char) (List Char)
  dalle : List Char → Except (List Char) (List Char)
  youtube : List Char → Except (List Char) (List Char)

/-- The `analysis_prompt` f-string of `analyze_query`, with the query embedded. -/
def analysis_prompt (query : List Char) : List Char :=
  str "\n        You are Chitti, an AI that determines the best medium (text, image, or video) to explain a topic.\n        \n        Analyze this user query: \"" ++
  query ++
  str "\"\n        \n        Consider:\n        - Text: Best for definitions, concepts, historical facts, scientific explanations\n        - Image: Best for visual appearance, objects, places, visual concepts\n        - Video: Best for processes, tutorials, demonstrations, step-by-step instructions\n        \n        Respond with ONLY:\n        1. Your reasoning (2-3 sentences explaining why you chose this medium)\n        2. The selected medium: either \"text\", \"image\", or \"video\"\n        \n        Format:\n        REASONING: [your reasoning here]\n        MEDIUM: [text/image/video]\n        "

/-- The line-by-line parsing loop of `analyze_query`: scan the reply's lines,
overwriting the reasoning on each `REASONING:` line and the medium on each
`MEDIUM:` line (marker removed by `replace`, then stripped; the medium is also
lower-cased), starting from the given defaults. -/
def parseLines : List (List Char) → List Char → List Char → List Char × List Char
  | [], reasoning, medium => (reasoning, medium)
  | line :: rest, reasoning, medium =>
    if reasoningMarker.isPrefixOf line then
      parseLines rest (pyStrip (pyReplace line reasoningMarker [])) medium
    else if mediumMarker.isPrefixOf line then
      parseLines rest reasoning (pyLower (pyStrip (pyReplace line mediumMarker [])))
    else
      parseLines rest reasoning medium

/-- Parsing of a full completion reply, as in `analyze_query`: strip the
content, split on newlines, then run `parseLines` with the defaults
`reasoning = ""` and `medium = "text"`. -/
def parseClassification (content : List Char) : List Char × List Char :=
  parseLines (splitNL (pyStrip content)) [] (str "text")

/-- `ChittiAgent.analyze_query`: send the analysis prompt to the completion
service and parse `REASONING:` / `MEDIUM:` lines from the reply.  A failure of
the completion call itself is not caught and propagates (`Except.error`). -/
def analyze_query (svc : Services) (state : AgentState) :
    Except (List Char) AgentState :=
  match svc.completion (analysis_prompt state.user_query) with
  | Except.error e => Except.error e
  | Except.ok content =>
      let parsed := parseClassification content
      Except.ok { state with reasoning := parsed.1, selected_medium := parsed.2 }

/-- `ChittiAgent.route_to_medium`: return the selected medium verbatim. -/
def route_to_medium (state : AgentState) : List Char := state.selected_medium

/-- Fixed error prefix of the Wikipedia branch's `except` clause. -/
def wikiErrorPrefix : List Char := str "Error retrieving Wikipedia information: "

/-- `ChittiAgent.get_wikipedia`: call the Wikipedia tool on the user query;
on an exception, store the fixed-prefix error text instead.  Total: it never
propagates a service failure. -/
def get_wikipedia (svc : Services) (state : AgentState) : AgentState :=
  match svc.wikipedia state.user_query with
  | Except.ok wiki_result => { state with output := wiki_result }
  | Except.error e => { state with output := wikiErrorPrefix ++ e }

/-- The DALL-E prompt template built inside `generate_image`. -/
def image_prompt (query : List Char) : List Char :=
  str "A clear, educational illustration of " ++ query ++ str ", high quality, detailed"

/-- Fixed error prefix of the image branch's `except` clause. -/
def imageErrorPrefix : List Char := str "Error generating image: "

/-- `ChittiAgent.generate_image`: request one image for the wrapped prompt and
store the first result's URL; on an exception, store the fixed-prefix error
text.  Total: it never propagates a service failure. -/
def generate_image (svc : Services) (state : AgentState) : AgentState :=
  match svc.dalle (image_prompt state.user_query) with
  | Except.ok image_url => { state with output := image_url }
  | Except.error e => { state with output := imageErrorPrefix ++ e }

/-- Fixed error prefix of the YouTube branch's `except` clause. -/
def youtubeErrorPrefix : List Char := str "Error searching YouTube: "

/-- `ChittiAgent.search_youtube`: search with `" tutorial explanation"`
appended to the query; on an exception, store the fixed-prefix error text.
Total: it never propagates a service failure. -/
def search_youtube (svc : Services) (state : AgentState) : AgentState :=
  match svc.youtube (state.user_query ++ str " tutorial explanation") with
  | Except.ok youtube_results => { state with output := youtube_results }
  | Except.error e => { state with output := youtubeErrorPrefix ++ e }

/-- `ChittiAgent.format_response`: build the medium-specific Markdown message.
For a medium outside `text` / `image` / `video` no branch assigns
`formatted_response`, so reading it raises `UnboundLocalError`, modelled as
`Except.error`. -/
def format_response (state : AgentState) : Except (List Char) AgentState :=
  let medium := state.selected_medium
  let reasoning := state.reasoning
  let output := state.output
  if medium = str "text" then
    Except.ok { state with messages :=
      [⟨ str "assistant",
         str "**Reasoning:** " ++ reasoning ++
         str "\n\n**Wikipedia Summary:**\n" ++ output ⟩] }
  else if medium = str "image" then
    Except.ok { state with messages :=
      [⟨ str "assistant",
         str "**Reasoning:** " ++ reasoning ++
         str "\n\n**Generated Image:**\n![Generated Image](" ++ output ++
         str ")\n\nImage URL: " ++ output ⟩] }
  else if medium = str "video" then
    Except.ok { state with messages :=
      [⟨ str "assistant",
         str "**Reasoning:** " ++ reasoning ++
         str "\n\n**YouTube Videos:**\n" ++ output ⟩] }
  else
    Except.error (str "UnboundLocalError: local variable referenced before assignment")

/-- Graph-node identifiers, used to record which nodes executed during a run. -/
inductive Node where
  | analyze
  | wiki
  | image
  | youtube
  | fmt
deriving DecidableEq, Repr

/-- The canonical media: the keys of the conditional-edge mapping in
`_build_graph`. -/
def canonicalMedia : List (List Char) := [str "text", str "image", str "video"]

/-- The branch node that the conditional-edge mapping assigns to a canonical
medium (`text` → Wikipedia, `image` → DALL-E, `video` → YouTube). -/
def branchFor (medium : List Char) : Node :=
  if medium = str "text" then Node.wiki
  else if medium = str "image" then Node.image
  else Node.youtube

/-- Tail shared by the three branches: after the branch node produced `state`,
`format_response` runs and the graph reaches `END`. -/
def finishRun (branch : Node) (state : AgentState) :
    Except (List Char) AgentState × List Node :=
  (format_response state, [Node.analyze, branch, Node.fmt])

/-- The conditional-edge dispatch of `_build_graph`, applied to the state the
classifier produced: the edge keyed on `route_to_medium` picks exactly one
branch node and continues to `format_response`; a medium outside the edge
mapping raises at dispatch time, as LangGraph does on an unknown branch key. -/
def dispatchFrom (svc : Services) (s : AgentState) :
    Except (List Char) AgentState × List Node :=
  let medium := route_to_medium s
  if medium = str "text" then finishRun Node.wiki (get_wikipedia svc s)
  else if medium = str "image" then finishRun Node.image (generate_image svc s)
  else if medium = str "video" then finishRun Node.youtube (search_youtube svc s)
  else
    (Except.error (str "Branch condition returned unknown value: " ++ medium),
     [Node.analyze])

/-- One invocation of the compiled graph: `analyze_query`, then the
conditional edge keyed on `route_to_medium`, then `format_response`.  Returns
the outcome together with the list of nodes that executed, in order. -/
def runTrace (svc : Services) (user_query : List Char) :
    Except (List Char) AgentState × List Node :=
  let initial : AgentState :=
    { user_query := user_query, reasoning := [], selected_medium := str "text",
      output := [], messages := [] }
  match analyze_query svc initial with
  | Except.error e => (Except.error e, [Node.analyze])
  | Except.ok s => dispatchFrom svc s

/-- `ChittiAgent.run`: invoke the graph on the fresh initial state and return
`final_state.messages[0].content` (indexing an empty list would raise). -/
def run (svc : Services) (user_query : List Char) :
    Except (List Char) (List Char) :=
  match (runTrace svc user_query).1 with
  | Except.error e => Except.error e
  | Except.ok final =>
      match final.messages with
      | [] => Except.error (str "IndexError: list index out of range")
      | msg :: _ => Except.ok msg.content

/-- Number of positions at which `pat` occurs in `s` as a contiguous
substring; for a non-empty pattern that cannot overlap itself this is the
usual occurrence count. -/
def countOcc (pat : List Char) : List Char → Nat
  | [] => 0
  | c :: s => (if pat.isPrefixOf (c :: s) then 1 else 0) + countOcc pat s

/-- The state `analyze_query` hands to the conditional edge when the
completion service replied with `content`: the fresh initial state of `run`
with the parsed reasoning and medium filled in. -/
def classifiedState (user_query content : List Char) : AgentState :=
  { user_query := user_query, reasoning := (parseClassification content).1,
    selected_medium := (parseClassification content).2, output := [], messages := [] }

/-- Concrete service bundle: the completion replies with an image
classification; every other service succeeds with fixed text. -/
def svcImageOk : Services :=
  { completion := fun _ => Except.ok (str "REASONING: because visuals matter\nMEDIUM: image"),
    wikipedia := fun _ => Except.ok (str "A summary."),
    dalle := fun _ => Except.ok (str "http://x/img.png"),
    youtube := fun _ => Except.ok (str "links") }

/-- Concrete service bundle all of whose calls raise. -/
def svcAllFail : Services :=
  { completion := fun _ => Except.error (str "completion down"),
    wikipedia := fun _ => Except.error (str "wiki down"),
    dalle := fun _ => Except.error (str "dalle down"),
    youtube := fun _ => Except.error (str "youtube down") }

/-- Concrete service bundle whose completion reply has no `MEDIUM:` marker. -/
def svcNoMarker : Services :=
  { completion := fun _ => Except.ok (str "REASONING: unclear\nno marker here"),
    wikipedia := fun _ => Except.ok (str "A summary."),
    dalle := fun _ => Except.ok (str "http://x/img.png"),
    youtube := fun _ => Except.ok (str "links") }

/-- Concrete service bundle whose completion reply classifies to the
non-canonical medium `"audio"`. -/
def svcAudio : Services :=
  { completion := fun _ => Except.ok (str "REASONING: sound\nMEDIUM: audio"),
    wikipedia := fun _ => Except.ok (str "A summary."),
    dalle := fun _ => Except.ok (str "http://x/img.png"),
    youtube := fun _ => Except.ok (str "links") }

/-- A concrete state that reaches `format_response` with the non-canonical
medium `"audio"`. -/
def audioState : AgentState :=
  { user_query := str "q", reasoning := str "sound",
    selected_medium := str "audio", output := [], messages := [] }

/-- A concrete fresh run state for the query `"q"`. -/
def qState : AgentState :=
  { user_query := str "q", reasoning := [], selected_medium := str "text",
    output := [], messages := [] }

end Chitti

namespace Chitti

/-- Lines in which no line starts with the medium marker leave the medium
accumulator of `parseLines` untouched. -/
lemma parseLines_medium_eq (lines : List (List Char)) :
    ∀ r m, (∀ l ∈ lines, mediumMarker.isPrefixOf l = false) →
      (parseLines lines r m).2 = m := by
  induction lines with
  | nil => intro r m _; rfl
  | cons l rest ih =>
      intro r m h
      have hl : mediumMarker.isPrefixOf l = false := h l (List.mem_cons_self _ _)
      have hrest : ∀ x ∈ rest, mediumMarker.isPrefixOf x = false :=
        fun x hx => h x (List.mem_cons_of_mem _ hx)
      cases hr : reasoningMarker.isPrefixOf l with
      | true => simpa [parseLines, hr] using ih _ _ hrest
      | false => simpa [parseLines, hr, hl] using ih _ _ hrest

/-- Scanning a string that contains no occurrence of the pattern changes
nothing, whatever the fuel. -/
lemma replaceCore_eq_self (pat repl : List Char) :
    ∀ (fuel : Nat) (s : List Char), ¬ pat <:+: s → replaceCore pat repl fuel s = s := by
  intro fuel
  induction fuel with
  | zero => intro s _; rfl
  | succ f ih =>
      intro s hs
      cases s with
      | nil => rfl
      | cons c rest =>
          have hp : pat.isPrefixOf (c :: rest) = false := by
            cases hp : pat.isPrefixOf (c :: rest) with
            | false => rfl
            | true =>
                have hpf := List.isPrefixOf_iff_prefix.mp hp
                exact absurd hpf.isInfix hs
          have hrest : ¬ pat <:+: rest := fun h => hs (List.infix_cons h)
          simp [replaceCore, hp, ih rest hrest]

/-- Python `line.replace(pat, repl)` on a line that starts with the non-empty
pattern and has no further occurrence of it: the leading marker is removed
and `repl` put in its place. -/
lemma pyReplace_strip (c : Char) (pt v repl : List Char)
    (h : ¬ (c :: pt) <:+: v) :
    pyReplace ((c :: pt) ++ v) (c :: pt) repl = repl ++ v := by
  have hpre : (c :: pt).isPrefixOf ((c :: pt) ++ v) = true :=
    List.isPrefixOf_iff_prefix.mpr (List.prefix_append _ _)
  show replaceCore (c :: pt) repl ((c :: pt) ++ v).length ((c :: pt) ++ v) = repl ++ v
  have hlen : ((c :: pt) ++ v).length = (pt ++ v).length + 1 := by simp
  rw [hlen]
  show replaceCore (c :: pt) repl ((pt ++ v).length + 1) (c :: (pt ++ v)) = repl ++ v
  have hdrop : (pt ++ v).drop ((c :: pt).length - 1) = v := by
    simp [List.drop_left]
  simp [replaceCore, hpre, hdrop, replaceCore_eq_self (c :: pt) repl _ v h]

/-- `parseLines` on a single line that is the medium marker followed by a
value containing no further marker: the marker is removed and the remainder,
stripped and lower-cased, is recorded as the medium. -/
lemma parseLines_medium_line (v r m : List Char) (h : ¬ mediumMarker <:+: v) :
    parseLines [mediumMarker ++ v] r m = (r, pyLower (pyStrip v)) := by
  have hR : reasoningMarker.isPrefixOf (mediumMarker ++ v) = false := by
    show List.isPrefixOf ('R' :: str "EASONING:") ('M' :: (str "EDIUM:" ++ v)) = false
    simp [List.isPrefixOf]
  have hM : mediumMarker.isPrefixOf (mediumMarker ++ v) = true :=
    List.isPrefixOf_iff_prefix.mpr (List.prefix_append _ _)
  have hrep : pyReplace (mediumMarker ++ v) mediumMarker [] = v := by
    have h2 := pyReplace_strip 'M' (str "EDIUM:") v [] h
    simpa using h2
  simp [parseLines, hR, hM, hrep]


/-- No occurrence of a pattern can start inside a leading block none of whose
characters equals the pattern's first character. -/
lemma countOcc_append_left (hd : Char) (pt : List Char) :
    ∀ (A rest : List Char), (∀ a ∈ A, a ≠ hd) →
      countOcc (hd :: pt) (A ++ rest) = countOcc (hd :: pt) rest := by
  intro A
  induction A with
  | nil => intro rest _; rfl
  | cons a A2 ih =>
      intro rest h
      have ha : a ≠ hd := h a (List.mem_cons_self _ _)
      have hp : (hd :: pt).isPrefixOf (a :: (A2 ++ rest)) = false := by
        cases hp : (hd :: pt).isPrefixOf (a :: (A2 ++ rest)) with
        | false => rfl
        | true =>
            obtain ⟨t, ht⟩ := List.isPrefixOf_iff_prefix.mp hp
            simp only [List.cons_append] at ht
            injection ht with h1 _
            exact absurd h1.symm ha
      have hA2 : ∀ x ∈ A2, x ≠ hd := fun x hx => h x (List.mem_cons_of_mem _ hx)
      calc countOcc (hd :: pt) ((a :: A2) ++ rest)
          = (if (hd :: pt).isPrefixOf (a :: (A2 ++ rest)) then 1 else 0) +
              countOcc (hd :: pt) (A2 ++ rest) := rfl
        _ = countOcc (hd :: pt) rest := by simp [hp, ih rest hA2]

/-- Occurrences cannot straddle the boundary between `r` and `T` when the
pattern does not occur inside `r` and the first character of `T` does not
occur in the pattern, so counting over `r ++ T` is counting over `T`. -/
lemma countOcc_append_right (pat : List Char) :
    ∀ (r T : List Char), ¬ pat <:+: r →
      (∀ x, T.head? = some x → x ∉ pat) →
      countOcc pat (r ++ T) = countOcc pat T := by
  intro r
  induction r with
  | nil => intro T _ _; rfl
  | cons c r2 ih =>
      intro T hr hT
      have hp : pat.isPrefixOf (c :: (r2 ++ T)) = false := by
        cases hp : pat.isPrefixOf (c :: (r2 ++ T)) with
        | false => rfl
        | true =>
            exfalso
            have hpre : pat <+: (c :: r2) ++ T := by
              simpa using List.isPrefixOf_iff_prefix.mp hp
            have hcr : (c :: r2) <+: (c :: r2) ++ T := List.prefix_append _ _
            rcases List.prefix_or_prefix_of_prefix hpre hcr with hc1 | hc2
            · exact hr hc1.isInfix
            · obtain ⟨p2, hp2⟩ := hc2
              cases p2 with
              | nil =>
                  simp only [List.append_nil] at hp2
                  subst hp2
                  exact hr (List.infix_refl _)
              | cons d p3 =>
                  have hdT : (d :: p3) <+: T := by
                    rw [← hp2] at hpre
                    exact (List.prefix_append_right_inj _).mp hpre
                  obtain ⟨u, hu⟩ := hdT
                  have hdhead : T.head? = some d := by rw [← hu]; rfl
                  have hdmem : d ∈ pat := by
                    rw [← hp2]
                    exact List.mem_append_right _ (List.mem_cons_self _ _)
                  exact hT d hdhead hdmem
      have hr2 : ¬ pat <:+: r2 := fun h => hr (List.infix_cons h)
      calc countOcc pat ((c :: r2) ++ T)
          = (if pat.isPrefixOf (c :: (r2 ++ T)) then 1 else 0) +
              countOcc pat (r2 ++ T) := rfl
        _ = countOcc pat T := by simp [hp, ih T hr2 hT]

/-- The Wikipedia branch only writes the output field. -/
lemma get_wikipedia_output (svc : Services) (s : AgentState) :
    ∃ out, get_wikipedia svc s = { s with output := out } := by
  cases h : svc.wikipedia s.user_query with
  | ok r => exact ⟨r, by simp [get_wikipedia, h]⟩
  | error e => exact ⟨wikiErrorPrefix ++ e, by simp [get_wikipedia, h]⟩

/-- The image branch only writes the output field. -/
lemma generate_image_output (svc : Services) (s : AgentState) :
    ∃ out, generate_image svc s = { s with output := out } := by
  cases h : svc.dalle (image_prompt s.user_query) with
  | ok r => exact ⟨r, by simp [generate_image, h]⟩
  | error e => exact ⟨imageErrorPrefix ++ e, by simp [generate_image, h]⟩

/-- The YouTube branch only writes the output field. -/
lemma search_youtube_output (svc : Services) (s : AgentState) :
    ∃ out, search_youtube svc s = { s with output := out } := by
  cases h : svc.youtube (s.user_query ++ str " tutorial explanation") with
  | ok r => exact ⟨r, by simp [search_youtube, h]⟩
  | error e => exact ⟨youtubeErrorPrefix ++ e, by simp [search_youtube, h]⟩


/-- Dispatch on medium `"text"`: the Wikipedia branch runs, then the
formatter, which succeeds with the text template. -/
lemma dispatchFrom_text (svc : Services) (s : AgentState)
    (h : s.selected_medium = str "text") :
    ∃ out, dispatchFrom svc s =
      (Except.ok { s with output := out, messages :=
         [⟨ str "assistant",
            str "**Reasoning:** " ++ s.reasoning ++
            str "\n\n**Wikipedia Summary:**\n" ++ out ⟩] },
       [Node.analyze, Node.wiki, Node.fmt]) := by
  obtain ⟨out, hw⟩ := get_wikipedia_output svc s
  exact ⟨out, by simp [dispatchFrom, route_to_medium, h, finishRun, hw, format_response]⟩

/-- Dispatch on medium `"image"`: the DALL-E branch runs, then the formatter,
which succeeds with the image template. -/
lemma dispatchFrom_image (svc : Services) (s : AgentState)
    (h : s.selected_medium = str "image") :
    ∃ out, dispatchFrom svc s =
      (Except.ok { s with output := out, messages :=
         [⟨ str "assistant",
            str "**Reasoning:** " ++ s.reasoning ++
            str "\n\n**Generated Image:**\n![Generated Image](" ++ out ++
            str ")\n\nImage URL: " ++ out ⟩] },
       [Node.analyze, Node.image, Node.fmt]) := by
  obtain ⟨out, hw⟩ := generate_image_output svc s
  have hne : (str "image" : List Char) ≠ str "text" := by decide
  exact ⟨out, by simp [dispatchFrom, route_to_medium, h, hne, finishRun, hw, format_response]⟩

/-- Dispatch on medium `"video"`: the YouTube branch runs, then the formatter,
which succeeds with the video template. -/
lemma dispatchFrom_video (svc : Services) (s : AgentState)
    (h : s.selected_medium = str "video") :
    ∃ out, dispatchFrom svc s =
      (Except.ok { s with output := out, messages :=
         [⟨ str "assistant",
            str "**Reasoning:** " ++ s.reasoning ++
            str "\n\n**YouTube Videos:**\n" ++ out ⟩] },
       [Node.analyze, Node.youtube, Node.fmt]) := by
  obtain ⟨out, hw⟩ := search_youtube_output svc s
  have hne1 : (str "video" : List Char) ≠ str "text" := by decide
  have hne2 : (str "video" : List Char) ≠ str "image" := by decide
  exact ⟨out, by simp [dispatchFrom, route_to_medium, h, hne1, hne2, finishRun, hw,
                       format_response]⟩

/-- Dispatch on a medium outside the edge mapping raises at dispatch time. -/
lemma dispatchFrom_unknown (svc : Services) (s : AgentState)
    (h : s.selected_medium ∉ canonicalMedia) :
    dispatchFrom svc s =
      (Except.error (str "Branch condition returned unknown value: " ++ s.selected_medium),
       [Node.analyze]) := by
  simp only [canonicalMedia, List.mem_cons, List.not_mem_nil, or_false, not_or] at h
  obtain ⟨h1, h2, h3⟩ := h
  simp [dispatchFrom, route_to_medium, h1, h2, h3]

/-- After a successful completion call, the run is the dispatch applied to the
classified state. -/
lemma runTrace_classified (svc : Services) (uq content : List Char)
    (hc : svc.completion (analysis_prompt uq) = Except.ok content) :
    runTrace svc uq = dispatchFrom svc (classifiedState uq content) := by
  simp [runTrace, analyze_query, hc, classifiedState]


/-- C1: if the completion reply's (stripped, newline-split) lines contain no
line starting with `MEDIUM:`, `analyze_query` returns normally with the
medium left at its pre-parse default `"text"`, and the whole run still
completes: the malformed reply does not abort the pipeline. -/
theorem medium_default_fallback (svc : Services) (st : AgentState) (content : List Char)
    (hc : svc.completion (analysis_prompt st.user_query) = Except.ok content)
    (hnm : ∀ l ∈ splitNL (pyStrip content), mediumMarker.isPrefixOf l = false) :
    analyze_query svc st =
      Except.ok { st with reasoning := (parseClassification content).1,
                          selected_medium := str "text" } ∧
    ∃ out, run svc st.user_query = Except.ok out := by
  have hmed : (parseClassification content).2 = str "text" :=
    parseLines_medium_eq _ _ _ hnm
  constructor
  · simp [analyze_query, hc, hmed]
  · have h1 := runTrace_classified svc st.user_query content hc
    have h2 : (classifiedState st.user_query content).selected_medium = str "text" := hmed
    obtain ⟨out, hd⟩ := dispatchFrom_text svc _ h2
    refine ⟨str "**Reasoning:** " ++ (classifiedState st.user_query content).reasoning ++
      (str "\n\n**Wikipedia Summary:**\n" ++ out), ?_⟩
    simp [run, h1, hd]

/-- C1 witness: a concrete marker-free reply yields medium `"text"` and a
normally completed run. -/
theorem medium_default_fallback_witness :
    svcNoMarker.completion (analysis_prompt qState.user_query) =
      Except.ok (str "REASONING: unclear\nno marker here") ∧
    (∀ l ∈ splitNL (pyStrip (str "REASONING: unclear\nno marker here")),
      mediumMarker.isPrefixOf l = false) ∧
    (analyze_query svcNoMarker qState =
      Except.ok { qState with
        reasoning := (parseClassification (str "REASONING: unclear\nno marker here")).1,
        selected_medium := str "text" } ∧
     ∃ out, run svcNoMarker qState.user_query = Except.ok out) :=
  ⟨by decide, by decide,
   medium_default_fallback svcNoMarker qState (str "REASONING: unclear\nno marker here")
     (by decide) (by decide)⟩

/-- C2: when the underlying service call raises, each of the three branch
executors returns normally with its fixed error prefix followed by the
failure detail; as total functions of the state they never propagate. -/
theorem branch_error_prefixes (svc : Services) (s : AgentState) (e1 e2 e3 : List Char)
    (h1 : svc.wikipedia s.user_query = Except.error e1)
    (h2 : svc.dalle (image_prompt s.user_query) = Except.error e2)
    (h3 : svc.youtube (s.user_query ++ str " tutorial explanation") = Except.error e3) :
    get_wikipedia svc s = { s with output := wikiErrorPrefix ++ e1 } ∧
    generate_image svc s = { s with output := imageErrorPrefix ++ e2 } ∧
    search_youtube svc s = { s with output := youtubeErrorPrefix ++ e3 } := by
  refine ⟨?_, ?_, ?_⟩
  · simp [get_wikipedia, h1]
  · simp [generate_image, h2]
  · simp [search_youtube, h3]

/-- C2 witness: all three branches, run against concretely failing services,
produce their fixed-prefix error outputs. -/
theorem branch_error_prefixes_witness :
    svcAllFail.wikipedia qState.user_query = Except.error (str "wiki down") ∧
    (get_wikipedia svcAllFail qState =
       { qState with output := wikiErrorPrefix ++ str "wiki down" } ∧
     generate_image svcAllFail qState =
       { qState with output := imageErrorPrefix ++ str "dalle down" } ∧
     search_youtube svcAllFail qState =
       { qState with output := youtubeErrorPrefix ++ str "youtube down" }) :=
  ⟨by decide,
   branch_error_prefixes svcAllFail qState (str "wiki down") (str "dalle down")
     (str "youtube down") (by decide) (by decide) (by decide)⟩

/-- C3: if the completion call inside the classifier raises, the run raises
with the same error, and neither any branch executor nor the formatter is
invoked: the trace records the classifier node only. -/
theorem classifier_failure_propagates (svc : Services) (uq e : List Char)
    (h : svc.completion (analysis_prompt uq) = Except.error e) :
    runTrace svc uq = (Except.error e, [Node.analyze]) ∧
    run svc uq = Except.error e ∧
    ∀ n ∈ (runTrace svc uq).2, n = Node.analyze := by
  have h1 : runTrace svc uq = (Except.error e, [Node.analyze]) := by
    simp [runTrace, analyze_query, h]
  refine ⟨h1, by simp [run, h1], ?_⟩
  rw [h1]
  intro n hn
  simpa using hn

/-- C3 witness: a concretely failing completion service aborts the run with
its error and only the classifier node in the trace. -/
theorem classifier_failure_propagates_witness :
    svcAllFail.completion (analysis_prompt (str "q")) =
      Except.error (str "completion down") ∧
    (runTrace svcAllFail (str "q") = (Except.error (str "completion down"), [Node.analyze]) ∧
     run svcAllFail (str "q") = Except.error (str "completion down") ∧
     ∀ n ∈ (runTrace svcAllFail (str "q")).2, n = Node.analyze) :=
  ⟨by decide,
   classifier_failure_propagates svcAllFail (str "q") (str "completion down") (by decide)⟩

/-- C5: the router is the identity on the classification's medium field: it
returns `selected_medium` verbatim, with no validation and no fallback. -/
theorem router_identity : ∀ s : AgentState, route_to_medium s = s.selected_medium :=
  fun _ => rfl


/-- C4 counterexample: on the line `"MEDIUM: MEDIUM: image"` (which starts
with the marker, remainder `" MEDIUM: image"`), the code records `"image"` —
Python `replace` removes every occurrence of the marker — whereas stripping
only the leading marker and trimming and lower-casing the remainder would
record `"medium: image"`.  So the recorded medium is not in general the
trimmed, lower-cased remainder after the marker. -/
theorem medium_line_parsing_counterexample :
    mediumMarker.isPrefixOf (mediumMarker ++ str " MEDIUM: image") = true ∧
    parseLines [mediumMarker ++ str " MEDIUM: image"] [] (str "text") =
      ([], str "image") ∧
    str "image" ≠ pyLower (pyStrip (str " MEDIUM: image")) :=
  ⟨by decide, by decide, by decide⟩

/-- C4 (amended): the worked example — reply
`"REASONING: because visuals matter\nMEDIUM: image"` parses to that reasoning
and medium `"image"` — and a line that starts with `MEDIUM:` and contains no
further occurrence of the marker records the marker-free remainder,
whitespace-trimmed and lower-cased, as the medium.  (Without the
no-further-occurrence restriction the statement fails: `replace` removes
interior markers too; see the counterexample.) -/
theorem medium_line_parsing :
    parseClassification (str "REASONING: because visuals matter\nMEDIUM: image") =
      (str "because visuals matter", str "image") ∧
    ∀ v r m, ¬ mediumMarker <:+: v →
      parseLines [mediumMarker ++ v] r m = (r, pyLower (pyStrip v)) :=
  ⟨by decide, fun v r m h => parseLines_medium_line v r m h⟩

/-- C4 witness: a concrete `MEDIUM:` line with mixed case and padding. -/
theorem medium_line_parsing_witness :
    (¬ mediumMarker <:+: str " Image ") ∧
    parseLines [mediumMarker ++ str " Image "] (str "r0") (str "text") =
      (str "r0", pyLower (pyStrip (str " Image "))) :=
  ⟨by decide, medium_line_parsing.2 (str " Image ") (str "r0") (str "text") (by decide)⟩

/-- C7: when the classification yields a canonical medium, the run's trace is
classifier, the single branch that medium selects, formatter — exactly one
branch executor runs and the other two are never invoked. -/
theorem exactly_one_branch (svc : Services) (uq content : List Char)
    (hc : svc.completion (analysis_prompt uq) = Except.ok content)
    (hm : (parseClassification content).2 ∈ canonicalMedia) :
    (runTrace svc uq).2 =
      [Node.analyze, branchFor (parseClassification content).2, Node.fmt] ∧
    List.count (branchFor (parseClassification content).2) (runTrace svc uq).2 = 1 ∧
    ∀ b, b ∈ [Node.wiki, Node.image, Node.youtube] →
      b ≠ branchFor (parseClassification content).2 →
      List.count b (runTrace svc uq).2 = 0 := by
  have hrt := runTrace_classified svc uq content hc
  simp only [canonicalMedia, List.mem_cons, List.not_mem_nil, or_false] at hm
  rcases hm with h | h | h
  · obtain ⟨out, hd⟩ := dispatchFrom_text svc _ (show (classifiedState uq content).selected_medium = str "text" from h)
    have hB : branchFor (parseClassification content).2 = Node.wiki := by rw [h]; decide
    have htr : (runTrace svc uq).2 = [Node.analyze, Node.wiki, Node.fmt] := by rw [hrt, hd]
    rw [hB, htr]
    refine ⟨rfl, by decide, ?_⟩
    intro b hb hne
    fin_cases hb
    · exact absurd rfl hne
    · decide
    · decide
  · obtain ⟨out, hd⟩ := dispatchFrom_image svc _ (show (classifiedState uq content).selected_medium = str "image" from h)
    have hB : branchFor (parseClassification content).2 = Node.image := by rw [h]; decide
    have htr : (runTrace svc uq).2 = [Node.analyze, Node.image, Node.fmt] := by rw [hrt, hd]
    rw [hB, htr]
    refine ⟨rfl, by decide, ?_⟩
    intro b hb hne
    fin_cases hb
    · decide
    · exact absurd rfl hne
    · decide
  · obtain ⟨out, hd⟩ := dispatchFrom_video svc _ (show (classifiedState uq content).selected_medium = str "video" from h)
    have hB : branchFor (parseClassification content).2 = Node.youtube := by rw [h]; decide
    have htr : (runTrace svc uq).2 = [Node.analyze, Node.youtube, Node.fmt] := by rw [hrt, hd]
    rw [hB, htr]
    refine ⟨rfl, by decide, ?_⟩
    intro b hb hne
    fin_cases hb
    · decide
    · decide
    · exact absurd rfl hne

/-- C7 witness: the image classification runs only the DALL-E branch. -/
theorem exactly_one_branch_witness :
    svcImageOk.completion (analysis_prompt (str "q")) =
      Except.ok (str "REASONING: because visuals matter\nMEDIUM: image") ∧
    (parseClassification (str "REASONING: because visuals matter\nMEDIUM: image")).2 ∈
      canonicalMedia ∧
    ((runTrace svcImageOk (str "q")).2 =
       [Node.analyze,
        branchFor (parseClassification (str "REASONING: because visuals matter\nMEDIUM: image")).2,
        Node.fmt] ∧
     List.count
       (branchFor (parseClassification (str "REASONING: because visuals matter\nMEDIUM: image")).2)
       (runTrace svcImageOk (str "q")).2 = 1 ∧
     ∀ b, b ∈ [Node.wiki, Node.image, Node.youtube] →
       b ≠ branchFor (parseClassification (str "REASONING: because visuals matter\nMEDIUM: image")).2 →
       List.count b (runTrace svcImageOk (str "q")).2 = 0) :=
  ⟨rfl, by decide, exactly_one_branch svcImageOk (str "q") _ rfl (by decide)⟩

/-- C8: the formatter is pure and deterministic for each canonical medium:
the produced message list depends only on (medium, reasoning, output), so two
states that agree on those fields yield byte-identical messages, whatever
their other fields. -/
theorem formatter_deterministic (s t : AgentState)
    (hc : s.selected_medium ∈ canonicalMedia)
    (h1 : s.selected_medium = t.selected_medium)
    (h2 : s.reasoning = t.reasoning)
    (h3 : s.output = t.output) :
    ∃ msgs, (format_response s).map AgentState.messages = Except.ok msgs ∧
            (format_response t).map AgentState.messages = Except.ok msgs := by
  have hne1 : (str "image" : List Char) ≠ str "text" := by decide
  have hne2 : (str "video" : List Char) ≠ str "text" := by decide
  have hne3 : (str "video" : List Char) ≠ str "image" := by decide
  simp only [canonicalMedia, List.mem_cons, List.not_mem_nil, or_false] at hc
  rcases hc with h | h | h
  · have ht : t.selected_medium = str "text" := h1 ▸ h
    refine ⟨[⟨ str "assistant",
      str "**Reasoning:** " ++ s.reasoning ++
      str "\n\n**Wikipedia Summary:**\n" ++ s.output ⟩], ?_, ?_⟩
    · simp [format_response, Except.map, h]
    · simp [format_response, Except.map, ht, ← h2, ← h3]
  · have ht : t.selected_medium = str "image" := h1 ▸ h
    refine ⟨[⟨ str "assistant",
      str "**Reasoning:** " ++ s.reasoning ++
      str "\n\n**Generated Image:**\n![Generated Image](" ++ s.output ++
      str ")\n\nImage URL: " ++ s.output ⟩], ?_, ?_⟩
    · simp [format_response, Except.map, h, hne1]
    · simp [format_response, Except.map, ht, hne1, ← h2, ← h3]
  · have ht : t.selected_medium = str "video" := h1 ▸ h
    refine ⟨[⟨ str "assistant",
      str "**Reasoning:** " ++ s.reasoning ++
      str "\n\n**YouTube Videos:**\n" ++ s.output ⟩], ?_, ?_⟩
    · simp [format_response, Except.map, h, hne2, hne3]
    · simp [format_response, Except.map, ht, hne2, hne3, ← h2, ← h3]

/-- C8 witness: two states agreeing on medium, reasoning and output but with
different queries and message histories format to the same message list. -/
theorem formatter_deterministic_witness :
    (str "image" ∈ canonicalMedia) ∧
    ∃ msgs,
      (format_response
        { user_query := str "q1", reasoning := str "r", selected_medium := str "image",
          output := str "http://x/img.png", messages := [] }).map AgentState.messages =
        Except.ok msgs ∧
      (format_response
        { user_query := str "q2", reasoning := str "r", selected_medium := str "image",
          output := str "http://x/img.png",
          messages := [⟨ str "user", str "old" ⟩] }).map AgentState.messages =
        Except.ok msgs :=
  ⟨by decide,
   formatter_deterministic
     { user_query := str "q1", reasoning := str "r", selected_medium := str "image",
       output := str "http://x/img.png", messages := [] }
     { user_query := str "q2", reasoning := str "r", selected_medium := str "image",
       output := str "http://x/img.png", messages := [⟨ str "user", str "old" ⟩] }
     (by decide) rfl rfl rfl⟩

/-- C9: a medium outside the three canonical values makes `format_response`
raise (the message local is never assigned), and a run whose classification
produces such a medium never returns normally — it raises at branch dispatch. -/
theorem formatter_unknown_medium_raises (m : List Char) (hm : m ∉ canonicalMedia) :
    (∀ s : AgentState, s.selected_medium = m →
       format_response s =
         Except.error (str "UnboundLocalError: local variable referenced before assignment")) ∧
    (∀ svc uq content, svc.completion (analysis_prompt uq) = Except.ok content →
       (parseClassification content).2 = m →
       run svc uq =
         Except.error (str "Branch condition returned unknown value: " ++ m)) := by
  constructor
  · intro s hs
    have h' := hm
    simp only [canonicalMedia, List.mem_cons, List.not_mem_nil, or_false, not_or] at h'
    obtain ⟨h1, h2, h3⟩ := h'
    simp [format_response, hs, h1, h2, h3]
  · intro svc uq content hc hp
    have hrt := runTrace_classified svc uq content hc
    have hsel : (classifiedState uq content).selected_medium = m := hp
    have hunk : (classifiedState uq content).selected_medium ∉ canonicalMedia := by
      rw [hsel]; exact hm
    have hd := dispatchFrom_unknown svc _ hunk
    rw [hsel] at hd
    simp [run, hrt, hd]

/-- C9 witness: the non-canonical medium `"audio"` makes the formatter raise,
and a run classified as `"audio"` raises at dispatch. -/
theorem formatter_unknown_medium_raises_witness :
    (str "audio" ∉ canonicalMedia) ∧
    format_response audioState =
      Except.error (str "UnboundLocalError: local variable referenced before assignment") ∧
    run svcAudio (str "q") =
      Except.error (str "Branch condition returned unknown value: " ++ str "audio") :=
  ⟨by decide,
   (formatter_unknown_medium_raises (str "audio") (by decide)).1 audioState rfl,
   (formatter_unknown_medium_raises (str "audio") (by decide)).2 svcAudio (str "q")
     (str "REASONING: sound\nMEDIUM: audio") rfl (by decide)⟩

/-- C10: a run whose classification is canonical ends with exactly one
message, whose role is `"assistant"`; `run` returns that message's content,
which begins with `"**Reasoning:** "` followed by the parsed reasoning. -/
theorem run_single_assistant_message (svc : Services) (uq content : List Char)
    (hc : svc.completion (analysis_prompt uq) = Except.ok content)
    (hm : (parseClassification content).2 ∈ canonicalMedia) :
    ∃ s rest, (runTrace svc uq).1 = Except.ok s ∧
      s.messages = [⟨ str "assistant",
        str "**Reasoning:** " ++ ((parseClassification content).1 ++ rest) ⟩] ∧
      run svc uq =
        Except.ok (str "**Reasoning:** " ++ ((parseClassification content).1 ++ rest)) := by
  have hrt := runTrace_classified svc uq content hc
  simp only [canonicalMedia, List.mem_cons, List.not_mem_nil, or_false] at hm
  rcases hm with h | h | h
  · obtain ⟨out, hd⟩ := dispatchFrom_text svc _
      (show (classifiedState uq content).selected_medium = str "text" from h)
    refine ⟨{ classifiedState uq content with output := out, messages :=
        [⟨ str "assistant",
           str "**Reasoning:** " ++ (classifiedState uq content).reasoning ++
           str "\n\n**Wikipedia Summary:**\n" ++ out ⟩] },
      str "\n\n**Wikipedia Summary:**\n" ++ out, ?_, ?_, ?_⟩
    · rw [hrt, hd]
    · simp [classifiedState]
    · simp only [run, hrt, hd]
      simp [classifiedState]
  · obtain ⟨out, hd⟩ := dispatchFrom_image svc _
      (show (classifiedState uq content).selected_medium = str "image" from h)
    refine ⟨{ classifiedState uq content with output := out, messages :=
        [⟨ str "assistant",
           str "**Reasoning:** " ++ (classifiedState uq content).reasoning ++
           str "\n\n**Generated Image:**\n![Generated Image](" ++ out ++
           str ")\n\nImage URL: " ++ out ⟩] },
      str "\n\n**Generated Image:**\n![Generated Image](" ++ out ++
        (str ")\n\nImage URL: " ++ out), ?_, ?_, ?_⟩
    · rw [hrt, hd]
    · simp [classifiedState]
    · simp only [run, hrt, hd]
      simp [classifiedState]
  · obtain ⟨out, hd⟩ := dispatchFrom_video svc _
      (show (classifiedState uq content).selected_medium = str "video" from h)
    refine ⟨{ classifiedState uq content with output := out, messages :=
        [⟨ str "assistant",
           str "**Reasoning:** " ++ (classifiedState uq content).reasoning ++
           str "\n\n**YouTube Videos:**\n" ++ out ⟩] },
      str "\n\n**YouTube Videos:**\n" ++ out, ?_, ?_, ?_⟩
    · rw [hrt, hd]
    · simp [classifiedState]
    · simp only [run, hrt, hd]
      simp [classifiedState]

/-- C10 witness: the image run produces one assistant message whose content
`run` returns, beginning with the reasoning header. -/
theorem run_single_assistant_message_witness :
    svcImageOk.completion (analysis_prompt (str "q")) =
      Except.ok (str "REASONING: because visuals matter\nMEDIUM: image") ∧
    (parseClassification (str "REASONING: because visuals matter\nMEDIUM: image")).2 ∈
      canonicalMedia ∧
    ∃ s rest, (runTrace svcImageOk (str "q")).1 = Except.ok s ∧
      s.messages = [⟨ str "assistant",
        str "**Reasoning:** " ++
          ((parseClassification (str "REASONING: because visuals matter\nMEDIUM: image")).1 ++
            rest) ⟩] ∧
      run svcImageOk (str "q") =
        Except.ok (str "**Reasoning:** " ++
          ((parseClassification (str "REASONING: because visuals matter\nMEDIUM: image")).1 ++
            rest)) :=
  ⟨rfl, by decide, run_single_assistant_message svcImageOk (str "q") _ rfl (by decide)⟩


/-- The image template built around a reasoning text that does not contain
the URL `http://x/img.png` has exactly two occurrences of that URL. -/
lemma countOcc_image_template (r : List Char)
    (hr : ¬ str "http://x/img.png" <:+: r) :
    countOcc (str "http://x/img.png")
      (str "**Reasoning:** " ++ r ++
       str "\n\n**Generated Image:**\n![Generated Image](" ++ str "http://x/img.png" ++
       str ")\n\nImage URL: " ++ str "http://x/img.png") = 2 := by
  have h1 : str "**Reasoning:** " ++ r ++
      str "\n\n**Generated Image:**\n![Generated Image](" ++ str "http://x/img.png" ++
      str ")\n\nImage URL: " ++ str "http://x/img.png" =
      str "**Reasoning:** " ++ (r ++
        str "\n\n**Generated Image:**\n![Generated Image](http://x/img.png)\n\nImage URL: http://x/img.png") := by
    simp only [List.append_assoc]
    congr 1
  rw [h1]
  show countOcc ('h' :: str "ttp://x/img.png")
      (str "**Reasoning:** " ++ (r ++
        str "\n\n**Generated Image:**\n![Generated Image](http://x/img.png)\n\nImage URL: http://x/img.png")) = 2
  rw [countOcc_append_left 'h' (str "ttp://x/img.png") (str "**Reasoning:** ") _ (by decide)]
  rw [countOcc_append_right ('h' :: str "ttp://x/img.png") r
      (str "\n\n**Generated Image:**\n![Generated Image](http://x/img.png)\n\nImage URL: http://x/img.png")
      hr ?_]
  · decide
  · intro x hx
    rw [show (str "\n\n**Generated Image:**\n![Generated Image](http://x/img.png)\n\nImage URL: http://x/img.png").head? =
        some '\n' from rfl] at hx
    injection hx with h
    subst h
    decide

/-- C6 counterexample: with the reasoning string equal to the URL itself, the
image template's message contains the URL three times, not exactly twice, so
the claim does not hold for every reasoning string. -/
theorem image_url_twice_counterexample :
    (format_response
        { user_query := [], reasoning := str "http://x/img.png",
          selected_medium := str "image", output := str "http://x/img.png",
          messages := [] }).map
      (fun st => countOcc (str "http://x/img.png") (st.messages.headD ⟨ [], [] ⟩).content)
      = Except.ok 3 := by decide

/-- C6 (amended): for medium `"image"` and output `"http://x/img.png"`, if the
reasoning does not itself contain the URL, the formatted message contains the
URL exactly twice — once in the inline image reference and once on the
labeled URL line. -/
theorem image_url_twice (s : AgentState)
    (hm : s.selected_medium = str "image")
    (ho : s.output = str "http://x/img.png")
    (hr : ¬ str "http://x/img.png" <:+: s.reasoning) :
    (format_response s).map
      (fun st => countOcc (str "http://x/img.png") (st.messages.headD ⟨ [], [] ⟩).content)
      = Except.ok 2 := by
  have hne : (str "image" : List Char) ≠ str "text" := by decide
  have hfmt : format_response s = Except.ok { s with messages :=
      [⟨ str "assistant",
         str "**Reasoning:** " ++ s.reasoning ++
         str "\n\n**Generated Image:**\n![Generated Image](" ++ str "http://x/img.png" ++
         str ")\n\nImage URL: " ++ str "http://x/img.png" ⟩] } := by
    simp [format_response, hm, ho, hne]
  rw [hfmt]
  show Except.ok (countOcc (str "http://x/img.png")
      (str "**Reasoning:** " ++ s.reasoning ++
       str "\n\n**Generated Image:**\n![Generated Image](" ++ str "http://x/img.png" ++
       str ")\n\nImage URL: " ++ str "http://x/img.png")) = Except.ok 2
  exact congrArg Except.ok (countOcc_image_template s.reasoning hr)

/-- C6 witness: a concrete reasoning not containing the URL gives exactly two
occurrences. -/
theorem image_url_twice_witness :
    (¬ str "http://x/img.png" <:+: str "because visuals matter") ∧
    (format_response
        { user_query := str "q", reasoning := str "because visuals matter",
          selected_medium := str "image", output := str "http://x/img.png",
          messages := [] }).map
      (fun st => countOcc (str "http://x/img.png") (st.messages.headD ⟨ [], [] ⟩).content)
      = Except.ok 2 :=
  ⟨by decide,
   image_url_twice
     { user_query := str "q", reasoning := str "because visuals matter",
       selected_medium := str "image", output := str "http://x/img.png", messages := [] }
     rfl rfl (by decide)⟩

end Chitti
